import Mathlib

/-!
Shallow embedding of the TonyOS backend (src/index.js).

The source file contains successive single-file versions of the backend.
The scoring engine and the task-service handlers the claims refer to live
in two of them:

* the "industry-grade" pg version: `urgencyScore` / `leverageScore` /
  `riskScore` / `frictionScore` / `computeScores` plus its `/tasks` and
  `/brain-dump` handlers;
* the later pg version: `computeTonyScore` (whose inner helpers of the
  same names first consult stored score columns), `withScores`, and its
  `/tasks` and `/brain-dump` handlers.

Modelling conventions:

* JS numbers reaching the scoring code (JSON numbers, SQL INTEGER
  values, epoch milliseconds) are modelled as `Int`.  All constants in
  the code are integral, and priorities are integers 1-5 by contract.
* The code compares `diffHours = diffMs / 3600000` (a float) against the
  integer thresholds 0, 24, 72 and 168.  Division by the positive
  constant 3600000 preserves every one of those comparisons, so the
  embedding compares `diffMs` against the thresholds scaled by 3600000.
  (The float quotient cannot cross a threshold either: the exact
  quotient of integral milliseconds is never closer to a threshold than
  `1/3600000` unless it is exactly on it, far outside double rounding
  error, and exact multiples divide exactly.)
* A `due_date` is modelled by what `new Date(due)` reveals about it:
  `none` = absent or falsy (the `!due` test), `some none` = present but
  unparsable (`Number.isNaN(d.getTime())`), `some (some ms)` = parses to
  the epoch-millisecond timestamp `ms`.
* Nullable DB score columns (`leverage_score`, …) are `Option Int`:
  `none` for SQL NULL, which is exactly when `typeof c === "number"`
  fails.
* JS `toLowerCase`, `trim` and the SQL text order are implemented on
  character lists (`jsToLower`, `jsTrim`, `strLt`); they agree with the
  JS/SQL behaviour on the ASCII data involved (keyword lists, bucket
  names).
-/

namespace TonyOS

/-- A task's `priority` field as the scoring code can observe it.
`num n` is a JS number with value `n`.  `other parsed` is any non-number
value; `parsed` is the result of `parseInt(priority || "3", 10)` on it
(`none` = NaN), so a falsy non-number (null, undefined, `""`, false)
carries `parsed = some 3`. -/
inductive Prio where
  | num (n : Int)
  | other (parsed : Option Int)
deriving DecidableEq, Repr

/-- A task's `due_date` as observed through `!due` and `new Date(due)`:
`none` = absent/falsy, `some none` = present but unparsable,
`some (some ms)` = parses to epoch milliseconds `ms`. -/
abbrev Due := Option (Option Int)

/-- The fields of a task that the scoring engine reads, plus the stored
score columns that `computeTonyScore` consults. -/
structure Task where
  description : Option String := none
  bucket : String := "later"
  priority : Prio := Prio.num 3
  due_date : Due := none
  leverage_score : Option Int := none
  risk_score : Option Int := none
  friction_score : Option Int := none
deriving DecidableEq, Repr

/-- `1000 * 60 * 60`, the divisor turning `diffMs` into `diffHours`. -/
def msPerHour : Int := 1000 * 60 * 60

/-- The due-date branch shared verbatim by both versions of the urgency
function: the threshold chain on `diffHours = diffMs / msPerHour`,
expressed on `diffMs` (see the module comment on the scaling). -/
def hourUrgency (diffMs : Int) : Int :=
  if diffMs < 0 then 5
  else if diffMs ≤ 24 * msPerHour then 4
  else if diffMs ≤ 72 * msPerHour then 3
  else if diffMs ≤ 24 * 7 * msPerHour then 2
  else 1

/-- `urgencyScore(task)` of the scoring engine: bucket-derived when no
due date, otherwise the `diffHours` threshold chain; unparsable → 1. -/
def urgencyScore (t : Task) (now : Int) : Int :=
  match t.due_date with
  | none =>
      if t.bucket = "today" then 3
      else if t.bucket = "this_week" then 2
      else 1
  | some none => 1
  | some (some ms) => hourUrgency (ms - now)

/-- `Math.min(Math.max(p, 1), 5)`. -/
def clamp15 (p : Int) : Int := min (max p 1) 5

/-- `leverageScore(task)`: take the priority when it is a number, else
`parseInt(priority || "3", 10)`; then `p || 3` (0 and NaN are falsy),
clamp into [1,5] and return `6 - clamped`. -/
def leverageScore (t : Task) : Int :=
  let p : Option Int :=
    match t.priority with
    | Prio.num n => some n
    | Prio.other parsed => parsed
  let p3 : Int :=
    match p with
    | some n => if n = 0 then 3 else n
    | none => 3
  6 - clamp15 p3

/-- `riskScore(task)` of the scoring engine: recompute urgency and map
`u ≥ 4 → 4`, `u = 3 → 3`, else `2`. -/
def riskScore (t : Task) (now : Int) : Int :=
  let u := urgencyScore t now
  if u ≥ 4 then 4 else if u = 3 then 3 else 2

/-- Lowercase one character the way JS `toLowerCase` does on the ASCII
data involved here: shift A-Z down by 32, leave the rest alone. -/
def charLower (c : Char) : Char :=
  if 65 ≤ c.toNat ∧ c.toNat ≤ 90 then Char.ofNat (c.toNat + 32) else c

/-- JS `s.toLowerCase()` on the ASCII data involved here. -/
def jsToLower (s : String) : String := ⟨s.data.map charLower⟩

/-- JS `s.trim()`: strip whitespace from both ends. -/
def jsTrim (s : String) : String :=
  ⟨((s.data.dropWhile Char.isWhitespace).reverse.dropWhile
      Char.isWhitespace).reverse⟩

/-- Code-point lexicographic comparison: the SQL text order on the ASCII
bucket names. -/
def charListLt : List Char → List Char → Bool
  | [], [] => false
  | [], _ :: _ => true
  | _ :: _, [] => false
  | a :: as, b :: bs => decide (a < b) || (a == b && charListLt as bs)

/-- Code-point order on strings (SQL text ORDER BY for ASCII data). -/
def strLt (a b : String) : Bool := charListLt a.data b.data

/-- Is `pat` a prefix of `s` (on character lists)? -/
def leadsWith : List Char → List Char → Bool
  | [], _ => true
  | _ :: _, [] => false
  | a :: as, b :: bs => a == b && leadsWith as bs

/-- Does `pat` occur contiguously inside `s` (on character lists)? -/
def subList (pat : List Char) : List Char → Bool
  | [] => leadsWith pat []
  | c :: rest => leadsWith pat (c :: rest) || subList pat rest

/-- JS `s.includes(pat)`. -/
def jsIncludes (s pat : String) : Bool := subList pat.data s.data

/-- `frictionScore(task)`: lowercase the (possibly absent) description
and scan it, first matching rule winning. -/
def frictionScore (t : Task) : Int :=
  let desc := jsToLower (t.description.getD "")
  if desc = "" then 2
  else if jsIncludes desc "tax" || jsIncludes desc "accounting" ||
      jsIncludes desc "legal" then 3
  else if jsIncludes desc "call" || jsIncludes desc "email" then 1
  else 2

/-- The `{L, U, R, F, score}` record both scoring entry points return. -/
structure Scores where
  L : Int
  U : Int
  R : Int
  F : Int
  score : Int
deriving DecidableEq, Repr

/-- `computeScores(task)` of the scoring engine:
`score = L + U + R - F`. -/
def computeScores (t : Task) (now : Int) : Scores :=
  let L := leverageScore t
  let U := urgencyScore t now
  let R := riskScore t now
  let F := frictionScore t
  ⟨L, U, R, F, L + U + R - F⟩

/-- The inner `urgencyScore()` of `computeTonyScore`: identical to the
engine's, except for `const bucket = t.bucket || "later"` first. -/
def tonyUrgency (t : Task) (now : Int) : Int :=
  let bucket := if t.bucket = "" then "later" else t.bucket
  match t.due_date with
  | none =>
      if bucket = "today" then 3
      else if bucket = "this_week" then 2
      else 1
  | some none => 1
  | some (some ms) => hourUrgency (ms - now)

/-- The inner `leverageScore()` of `computeTonyScore`: a numerically
stored `leverage_score` is returned as-is; otherwise a numeric priority
is clamped (no `p || 3` here) and a non-number priority becomes 3. -/
def tonyLeverage (t : Task) : Int :=
  match t.leverage_score with
  | some n => n
  | none =>
      let p : Int :=
        match t.priority with
        | Prio.num n => n
        | Prio.other _ => 3
      6 - clamp15 p

/-- The inner `riskScore()` of `computeTonyScore`: a numerically stored
`risk_score` is returned as-is, else the urgency table applies. -/
def tonyRisk (t : Task) (now : Int) : Int :=
  match t.risk_score with
  | some n => n
  | none =>
      let u := tonyUrgency t now
      if u ≥ 4 then 4 else if u = 3 then 3 else 2

/-- The inner `frictionScore()` of `computeTonyScore`: a numerically
stored `friction_score` is returned as-is, else the description scan. -/
def tonyFriction (t : Task) : Int :=
  match t.friction_score with
  | some n => n
  | none =>
      let desc := jsToLower (t.description.getD "")
      if desc = "" then 2
      else if jsIncludes desc "tax" || jsIncludes desc "accounting" ||
          jsIncludes desc "legal" then 3
      else if jsIncludes desc "call" || jsIncludes desc "email" then 1
      else 2

/-- `computeTonyScore(t)`: `score = L + U + R - F` of the four inner
helpers above. -/
def computeTonyScore (t : Task) (now : Int) : Scores :=
  let L := tonyLeverage t
  let U := tonyUrgency t now
  let R := tonyRisk t now
  let F := tonyFriction t
  ⟨L, U, R, F, L + U + R - F⟩

/-- `withScores(rows)`: annotate each fetched row with
`computeTonyScore` of that row. -/
def withScores (rows : List Task) (now : Int) : List (Task × Scores) :=
  rows.map (fun t => (t, computeTonyScore t now))

/-- Claim-side urgency, following the spec's words: absent due date →
bucket table; parseable due date → thresholds on the hours remaining
(negative → 5, ≤24 → 4, ≤72 → 3, ≤168 → 2, else 1, compared exactly via
milliseconds); unparsable → 1. -/
def specUrgency (due : Due) (bucket : String) (now : Int) : Int :=
  match due with
  | none =>
      if bucket = "today" then 3
      else if bucket = "this_week" then 2
      else 1
  | some none => 1
  | some (some ms) =>
      if ms - now < 0 then 5
      else if ms - now ≤ 24 * msPerHour then 4
      else if ms - now ≤ 72 * msPerHour then 3
      else if ms - now ≤ 168 * msPerHour then 2
      else 1

/-- Claim-side risk table: urgency ≥ 4 → 4, urgency = 3 → 3, else 2. -/
def riskOfUrgency (u : Int) : Int :=
  if u ≥ 4 then 4 else if u = 3 then 3 else 2

/-- Claim-side friction, following the claim's words: empty or absent
description → 2; else, case-insensitively, tax/accounting/legal → 3;
else call/email → 1; else 2; first matching rule wins. -/
def specFriction (d : Option String) : Int :=
  match d with
  | none => 2
  | some s =>
      let low := jsToLower s
      if low = "" then 2
      else if jsIncludes low "tax" || jsIncludes low "accounting" ||
          jsIncludes low "legal" then 3
      else if jsIncludes low "call" || jsIncludes low "email" then 1
      else 2

/-- A row as the `/tasks` list query orders it: the columns named in its
ORDER BY clause. -/
structure ListRow where
  status : String := "open"
  bucket : String := "later"
  priority : Int := 3
  due_date : Option Int := none
deriving DecidableEq, Repr

/-- `'9999-12-31'` (UTC midnight) as epoch milliseconds: the sentinel
`COALESCE(due_date, '9999-12-31')` substitutes for a NULL due date. -/
def dueSentinel : Int := 253402214400000

/-- The comparator realising the later pg version's list query
`ORDER BY (status = 'done') ASC, bucket, priority,
COALESCE(due_date, '9999-12-31') ASC`: booleans with false first, then
the bucket column as text, then priority, then the coalesced due date. -/
def rowLe (a b : ListRow) : Bool :=
  if (a.status == "done") ≠ (b.status == "done") then !(a.status == "done")
  else if a.bucket ≠ b.bucket then strLt a.bucket b.bucket
  else if a.priority ≠ b.priority then decide (a.priority < b.priority)
  else decide (a.due_date.getD dueSentinel ≤ b.due_date.getD dueSentinel)

/-- Insert a row into a list sorted by `rowLe`. -/
def insertRow (r : ListRow) : List ListRow → List ListRow
  | [] => [r]
  | x :: xs => if rowLe r x then r :: x :: xs else x :: insertRow r xs

/-- The ordered result set of the list query: the stored rows sorted by
its ORDER BY comparator. -/
def sortRows (rows : List ListRow) : List ListRow :=
  rows.foldr insertRow []

/-- Claim-side bucket rank: today < this_week < later < backlog. -/
def specBucketRank (b : String) : Int :=
  if b = "today" then 1
  else if b = "this_week" then 2
  else if b = "later" then 3
  else 4

/-- The `title` field of a create request as the validation
`!title || typeof title !== "string"` can observe it: a string, or a
non-string value of which only truthiness matters. -/
inductive TitleVal where
  | str (s : String)
  | nonStr (truthy : Bool)
deriving DecidableEq, Repr

/-- A `POST /tasks` request body.  `none` fields are absent, so the
destructuring defaults apply to them.  The `priority` of a body is
modelled as numeric-or-absent (non-numeric priorities are passed through
to SQL unvalidated and are outside the claims). -/
structure CreateBody where
  title : Option TitleVal := none
  description : Option String := none
  area : Option String := none
  status : Option String := none
  bucket : Option String := none
  priority : Option Int := none
  due_date : Due := none
deriving DecidableEq, Repr

/-- The row a successful create inserts. -/
structure NewTask where
  title : String
  description : Option String
  area : Option String
  status : String
  bucket : String
  priority : Int
  due_date : Due
deriving DecidableEq, Repr

/-- The `POST /tasks` handler (both pg versions validate and default
identically): reject with a 400 client error unless the title is a
non-empty string, otherwise insert with the destructuring defaults
`status = "open"`, `bucket = "later"`, `priority = 3`. -/
def createTask (b : CreateBody) : Except (Nat × String) NewTask :=
  match b.title with
  | some (TitleVal.str s) =>
      if s = "" then Except.error (400, "title is required")
      else Except.ok
        { title := s
          description := b.description
          area := b.area
          status := b.status.getD "open"
          bucket := b.bucket.getD "later"
          priority := b.priority.getD 3
          due_date := b.due_date }
  | _ => Except.error (400, "title is required")

/-- One task draft of a brain-dump batch, as parsed from the model's
JSON.  `none` fields are absent.  Titles are modelled as strings (the
JSON schema requires a string title); priorities as numeric-or-absent
(`Number(undefined)` is NaN, so an absent priority falls back to 3). -/
structure Draft where
  title : Option String := none
  description : Option String := none
  bucket : Option String := none
  priority : Option Int := none
  due_date : Due := none
  area : Option String := none
deriving DecidableEq, Repr

/-- The row the "industry-grade" `/brain-dump` loop inserts for one
draft: fields normalised as in its body (`String(t.title || "").trim()`,
`t.description ? … : null`, `t.area ? … : default_area`,
`t.bucket || default_bucket`, numeric-or-3 priority,
`t.due_date || null`), plus the four scores of `computeScores` that the
INSERT persists. -/
structure BrainTask where
  title : String
  description : Option String
  area : Option String
  status : String
  bucket : String
  priority : Int
  due_date : Due
  leverage_score : Int
  urgency_score : Int
  risk_score : Int
  friction_score : Int
deriving DecidableEq, Repr

/-- The loop body of the "industry-grade" `/brain-dump` handler for a
draft that passes the title check. -/
def mkBrainTask (dB : String) (dA : Option String) (now : Int)
    (t : Draft) : BrainTask :=
  let title := jsTrim (t.title.getD "")
  let description :=
    match t.description with
    | some s => if s = "" then none else some s
    | none => none
  let area :=
    match t.area with
    | some s => if s = "" then dA else some s
    | none => dA
  let bucket :=
    match t.bucket with
    | some s => if s = "" then dB else s
    | none => dB
  let priority := t.priority.getD 3
  let due_date := t.due_date
  let scores := computeScores
    ⟨description, bucket, Prio.num priority, due_date, none, none, none⟩ now
  ⟨title, description, area, "open", bucket, priority, due_date,
    scores.L, scores.U, scores.R, scores.F⟩

/-- The "industry-grade" `/brain-dump` creation loop: coerce and trim
the title, `continue` when it is empty, otherwise insert. -/
def processDrafts2 (dB : String) (dA : Option String) (now : Int) :
    List Draft → List BrainTask
  | [] => []
  | t :: ts =>
      if jsTrim (t.title.getD "") = "" then processDrafts2 dB dA now ts
      else mkBrainTask dB dA now t :: processDrafts2 dB dA now ts

/-- The later pg `/brain-dump` loop body: destructuring defaults
(`description = null`, `bucket = default_bucket`, `priority = 3`,
`due_date = null`, `area = default_area || null`), status `'open'`. -/
def mkBrainTask3 (dB : String) (dA : Option String) (t : Draft) : NewTask :=
  { title := t.title.getD ""
    description := t.description
    area := (match t.area with
      | some s => some s
      | none =>
          match dA with
          | some s => if s = "" then none else some s
          | none => none)
    status := "open"
    bucket := t.bucket.getD dB
    priority := t.priority.getD 3
    due_date := t.due_date }

/-- The later pg `/brain-dump` creation loop: `if (!title) continue;`
(missing or empty title is falsy), otherwise insert. -/
def processDrafts3 (dB : String) (dA : Option String) :
    List Draft → List NewTask
  | [] => []
  | t :: ts =>
      if t.title.getD "" = "" then processDrafts3 dB dA ts
      else mkBrainTask3 dB dA t :: processDrafts3 dB dA ts

/-- The numeric value `computeTonyScore` derives from a priority field:
the number itself when numeric, else 3. -/
def prioNum3 : Prio → Int
  | Prio.num n => n
  | Prio.other _ => 3

/-- The spec's worked example: priority 1, bucket "today", no due date,
empty description. -/
def exTask : Task :=
  { priority := Prio.num 1, bucket := "today", description := some "" }

/-- A row whose `leverage_score` column is populated (as every row the
"industry-grade" version inserts is), carrying a value that disagrees
with its own priority. -/
def storedTask : Task :=
  { priority := Prio.num 1, leverage_score := some 42 }

/-- An open, priority-3, no-due-date task in bucket "today". -/
def todayRow : ListRow := { bucket := "today" }

/-- An open, priority-3, no-due-date task in bucket "backlog". -/
def backlogRow : ListRow := { bucket := "backlog" }

/-- The engine's urgency agrees with the claim-side urgency. -/
theorem urgency_eq_spec (t : Task) (now : Int) :
    urgencyScore t now = specUrgency t.due_date t.bucket now := by
  rcases t with ⟨d, b, p, due, ls, rs, fs⟩
  rcases due with _ | o
  · rfl
  · rcases o with _ | ms <;> rfl

/-- `computeTonyScore`'s urgency agrees with the claim-side urgency:
the `bucket || "later"` fallback only rewrites a falsy bucket, which the
bucket table sends to 1 either way. -/
theorem tonyUrgency_eq_spec (t : Task) (now : Int) :
    tonyUrgency t now = specUrgency t.due_date t.bucket now := by
  rcases t with ⟨d, b, p, due, ls, rs, fs⟩
  by_cases hb : b = ""
  · subst hb
    rcases due with _ | o
    · rfl
    · rcases o with _ | ms <;> rfl
  · rcases due with _ | o
    · simp only [tonyUrgency, specUrgency, if_neg hb]
    · rcases o with _ | ms <;> rfl

/-- The engine's friction agrees with the claim-side friction. -/
theorem friction_eq_spec (t : Task) :
    frictionScore t = specFriction t.description := by
  rcases t with ⟨d, b, p, due, ls, rs, fs⟩
  rcases d with _ | s <;> rfl

/-- With no stored friction column, `computeTonyScore`'s friction agrees
with the claim-side friction. -/
theorem tonyFriction_eq_spec (t : Task) (hf : t.friction_score = none) :
    tonyFriction t = specFriction t.description := by
  rcases t with ⟨d, b, p, due, ls, rs, fs⟩
  subst hf
  rcases d with _ | s <;> rfl

/-- The engine's risk is the risk table applied to the engine's
urgency. -/
theorem riskScore_eq (t : Task) (now : Int) :
    riskScore t now = riskOfUrgency (urgencyScore t now) := rfl

/-- With no stored risk column, `computeTonyScore`'s risk is the risk
table applied to its urgency. -/
theorem tonyRisk_eq (t : Task) (now : Int) (hr : t.risk_score = none) :
    tonyRisk t now = riskOfUrgency (tonyUrgency t now) := by
  rcases t with ⟨d, b, p, due, ls, rs, fs⟩
  subst hr
  rfl

/-- The risk table only takes values 2, 3 and 4. -/
theorem riskOfUrgency_mem (u : Int) :
    2 ≤ riskOfUrgency u ∧ riskOfUrgency u ≤ 4 := by
  unfold riskOfUrgency
  split_ifs <;> omega

/-- The due-date threshold chain is antitone in the time remaining. -/
theorem hourUrgency_anti {a b : Int} (hab : a ≤ b) :
    hourUrgency b ≤ hourUrgency a := by
  simp only [hourUrgency, msPerHour]
  split_ifs <;> omega

/-- C1: for every task, the urgency score follows the claimed rule —
with no due date it is 3 for bucket "today", 2 for "this_week" and 1
otherwise; with a due date parsing to a timestamp it is 5 when the hours
remaining are negative, 4 when at most 24, 3 when at most 72, 2 when at
most 168, else 1; an unparsable due date gives 1 — in the scoring
engine's `urgencyScore` and in `computeTonyScore`'s urgency alike. -/
theorem C1_urgency_matches_spec (t : Task) (now : Int) :
    urgencyScore t now = specUrgency t.due_date t.bucket now ∧
    tonyUrgency t now = specUrgency t.due_date t.bucket now :=
  ⟨urgency_eq_spec t now, tonyUrgency_eq_spec t now⟩

/-- C2 counterexample: the claim demands that a numeric priority of 0 be
clamped to 1, giving leverage 6 − 1 = 5, but `leverageScore` evaluates
`p || 3` first (0 is falsy), so the code returns 3. -/
theorem C2_counterexample :
    leverageScore { priority := Prio.num 0 } = 3 ∧
    6 - clamp15 0 = 5 ∧ (3 : Int) ≠ 5 := by decide

/-- C2 amended: `leverageScore` returns 6 − clamp(p) for a non-zero
numeric priority p, and 3 when the priority is numeric 0; a non-numeric
priority is parsed with `parseInt` (with "3" substituted for falsy
values), giving 6 − clamp(n) for a non-zero parse n and 3 for a zero or
failed parse.  `computeTonyScore` returns a numerically stored
`leverage_score` unchanged; otherwise 6 − clamp(p) for numeric p and 3
for a non-numeric priority. -/
theorem C2_leverage_amended (t : Task) :
    (∀ n : Int, t.priority = Prio.num n → n ≠ 0 →
      leverageScore t = 6 - clamp15 n) ∧
    (t.priority = Prio.num 0 → leverageScore t = 3) ∧
    (∀ n : Int, t.priority = Prio.other (some n) → n ≠ 0 →
      leverageScore t = 6 - clamp15 n) ∧
    (t.priority = Prio.other (some 0) ∨ t.priority = Prio.other none →
      leverageScore t = 3) ∧
    (∀ n : Int, t.leverage_score = some n → tonyLeverage t = n) ∧
    (∀ n : Int, t.leverage_score = none → t.priority = Prio.num n →
      tonyLeverage t = 6 - clamp15 n) ∧
    (∀ pr, t.leverage_score = none → t.priority = Prio.other pr →
      tonyLeverage t = 3) := by
  rcases t with ⟨d, b, p, due, ls, rs, fs⟩
  refine ⟨?_, ?_, ?_, ?_, ?_, ?_, ?_⟩
  · intro n hp hn
    subst hp
    show 6 - clamp15 (if n = 0 then 3 else n) = 6 - clamp15 n
    rw [if_neg hn]
  · intro hp
    subst hp
    rfl
  · intro n hp hn
    subst hp
    show 6 - clamp15 (if n = 0 then 3 else n) = 6 - clamp15 n
    rw [if_neg hn]
  · intro hp
    rcases hp with hp | hp <;> (subst hp; rfl)
  · intro n hl
    subst hl
    rfl
  · intro n hl hp
    subst hl
    subst hp
    rfl
  · intro pr hl hp
    subst hl
    subst hp
    rfl

/-- C2 amended witness: the amended rule evaluated at concrete
priorities and stored values. -/
theorem C2_leverage_amended_witness :
    leverageScore { priority := Prio.num 2 } = 6 - clamp15 2 ∧
    leverageScore { priority := Prio.num 0 } = 3 ∧
    leverageScore { priority := Prio.other (some 7) } = 6 - clamp15 7 ∧
    leverageScore { priority := Prio.other none } = 3 ∧
    tonyLeverage { leverage_score := some 42 } = 42 ∧
    tonyLeverage { priority := Prio.num 4 } = 6 - clamp15 4 ∧
    tonyLeverage { priority := Prio.other (some 7) } = 3 :=
  ⟨(C2_leverage_amended _).1 2 rfl (by decide),
   (C2_leverage_amended _).2.1 rfl,
   (C2_leverage_amended _).2.2.1 7 rfl (by decide),
   (C2_leverage_amended _).2.2.2.1 (Or.inr rfl),
   (C2_leverage_amended _).2.2.2.2.1 42 rfl,
   (C2_leverage_amended _).2.2.2.2.2.1 4 rfl rfl,
   (C2_leverage_amended _).2.2.2.2.2.2 (some 7) rfl rfl⟩

/-- C3 counterexample: the claim demands friction 1 for a task whose
description contains "call" and none of tax/accounting/legal, but
`computeTonyScore` returns a numerically stored `friction_score` (here
3) without scanning the description. -/
theorem C3_counterexample :
    tonyFriction { description := some "call", friction_score := some 3 } = 3 ∧
    specFriction (some "call") = 1 ∧ (3 : Int) ≠ 1 := by decide

/-- C3 amended: the claimed case-insensitive first-match scan (empty or
absent → 2; tax/accounting/legal → 3; else call/email → 1; else 2)
governs the engine's `frictionScore` always, and `computeTonyScore`'s
friction exactly when no numeric `friction_score` is stored; a stored
one is returned unchanged. -/
theorem C3_friction_amended (t : Task) :
    frictionScore t = specFriction t.description ∧
    (t.friction_score = none → tonyFriction t = specFriction t.description) ∧
    (∀ n : Int, t.friction_score = some n → tonyFriction t = n) := by
  refine ⟨friction_eq_spec t, fun hf => tonyFriction_eq_spec t hf, ?_⟩
  intro n hf
  rcases t with ⟨d, b, p, due, ls, rs, fs⟩
  subst hf
  rfl

/-- C3 amended witness: the amended rule at a scanned and at a stored
friction value. -/
theorem C3_friction_amended_witness :
    tonyFriction { description := some "Email the TAX office" } =
      specFriction (some "Email the TAX office") ∧
    tonyFriction { friction_score := some 7 } = 7 :=
  ⟨(C3_friction_amended { description := some "Email the TAX office" }).2.1 rfl,
   (C3_friction_amended { friction_score := some 7 }).2.2 7 rfl⟩

/-- C4 counterexample: the claim makes risk a pure function of urgency
with range 2-4, but `computeTonyScore` returns a numerically stored
`risk_score` (here 99) regardless of its urgency (here 1, whose table
value is 2), and 99 lies outside 2-4. -/
theorem C4_counterexample :
    tonyRisk { risk_score := some 99 } 0 = 99 ∧
    tonyUrgency { risk_score := some 99 } 0 = 1 ∧
    riskOfUrgency 1 = 2 ∧ ¬ ((99 : Int) ≤ 4) := by decide

/-- C4 amended: the engine's `riskScore` is the claimed pure function of
its urgency (≥4 → 4, =3 → 3, else 2) and always lies in 2-4;
`computeTonyScore`'s risk equals that function of its urgency exactly
when no numeric `risk_score` is stored, while a stored one is returned
unchanged (and need not lie in 2-4). -/
theorem C4_risk_amended (t : Task) (now : Int) :
    riskScore t now = riskOfUrgency (urgencyScore t now) ∧
    2 ≤ riskScore t now ∧ riskScore t now ≤ 4 ∧
    (t.risk_score = none → tonyRisk t now = riskOfUrgency (tonyUrgency t now)) ∧
    (∀ n : Int, t.risk_score = some n → tonyRisk t now = n) := by
  refine ⟨rfl, (riskOfUrgency_mem (urgencyScore t now)).1,
    (riskOfUrgency_mem (urgencyScore t now)).2,
    fun hr => tonyRisk_eq t now hr, ?_⟩
  intro n hr
  rcases t with ⟨d, b, p, due, ls, rs, fs⟩
  subst hr
  rfl

/-- C4 amended witness: the amended rule at a recomputed and at a stored
risk value. -/
theorem C4_risk_amended_witness :
    tonyRisk ({ } : Task) 0 = riskOfUrgency (tonyUrgency ({ } : Task) 0) ∧
    tonyRisk { risk_score := some 99 } 0 = 99 :=
  ⟨(C4_risk_amended ({ } : Task) 0).2.2.2.1 rfl,
   (C4_risk_amended { risk_score := some 99 } 0).2.2.2.2 99 rfl⟩

/-- C5: in both scoring entry points the composite score is exactly
Leverage + Urgency + Risk − Friction with no clamping, and the worked
example (priority 1, bucket "today", no due date, empty description)
yields sub-scores 5, 3, 3, 2 and composite 9. -/
theorem C5_composite_sum (t : Task) (now : Int) :
    (computeScores t now).score =
      (computeScores t now).L + (computeScores t now).U +
        (computeScores t now).R - (computeScores t now).F ∧
    (computeTonyScore t now).score =
      (computeTonyScore t now).L + (computeTonyScore t now).U +
        (computeTonyScore t now).R - (computeTonyScore t now).F ∧
    computeScores exTask now = ⟨5, 3, 3, 2, 9⟩ ∧
    computeTonyScore exTask now = ⟨5, 3, 3, 2, 9⟩ :=
  ⟨rfl, rfl, rfl, rfl⟩

/-- C6 counterexample: a row with priority 1 and a stored
`leverage_score` of 42 is reported with leverage 42 by
`computeTonyScore`, while the scoring function of its current fields
gives 5 — the read does trust the stored column. -/
theorem C6_counterexample :
    (computeTonyScore storedTask 0).L = 42 ∧
    (computeScores storedTask 0).L = 5 ∧ (42 : Int) ≠ 5 := by decide

/-- C6 amended: on read, urgency is always recomputed from the current
fields; leverage, risk and friction are taken from a numerically stored
score column when one is present and recomputed otherwise; whenever all
three stored columns are NULL (as for every row this version inserts),
the whole reported record equals the pure scoring of the current
fields. -/
theorem C6_scores_amended (t : Task) (now : Int) :
    (computeTonyScore t now).U = specUrgency t.due_date t.bucket now ∧
    (∀ n : Int, t.leverage_score = some n → (computeTonyScore t now).L = n) ∧
    (∀ n : Int, t.risk_score = some n → (computeTonyScore t now).R = n) ∧
    (∀ n : Int, t.friction_score = some n → (computeTonyScore t now).F = n) ∧
    (t.leverage_score = none → t.risk_score = none →
      t.friction_score = none →
      computeTonyScore t now =
        ⟨6 - clamp15 (prioNum3 t.priority),
         specUrgency t.due_date t.bucket now,
         riskOfUrgency (specUrgency t.due_date t.bucket now),
         specFriction t.description,
         6 - clamp15 (prioNum3 t.priority) +
           specUrgency t.due_date t.bucket now +
           riskOfUrgency (specUrgency t.due_date t.bucket now) -
           specFriction t.description⟩) := by
  refine ⟨tonyUrgency_eq_spec t now, ?_, ?_, ?_, ?_⟩
  · intro n hl
    rcases t with ⟨d, b, p, due, ls, rs, fs⟩
    subst hl
    rfl
  · intro n hr
    rcases t with ⟨d, b, p, due, ls, rs, fs⟩
    subst hr
    rfl
  · intro n hf
    rcases t with ⟨d, b, p, due, ls, rs, fs⟩
    subst hf
    rfl
  · intro hl hr hf
    have hU := tonyUrgency_eq_spec t now
    have hF := tonyFriction_eq_spec t hf
    have hR := tonyRisk_eq t now hr
    have hL : tonyLeverage t = 6 - clamp15 (prioNum3 t.priority) := by
      rcases t with ⟨d, b, p, due, ls, rs, fs⟩
      subst hl
      rcases p with n | pr <;> rfl
    show (⟨tonyLeverage t, tonyUrgency t now, tonyRisk t now,
      tonyFriction t, tonyLeverage t + tonyUrgency t now +
        tonyRisk t now - tonyFriction t⟩ : Scores) = _
    rw [hL, hU, hF, hR, hU]

/-- C6 amended witness: the amended rule at a fully-NULL-scored row and
at a row with a stored leverage column. -/
theorem C6_scores_amended_witness :
    computeTonyScore exTask 0 =
      ⟨6 - clamp15 (prioNum3 exTask.priority),
       specUrgency exTask.due_date exTask.bucket 0,
       riskOfUrgency (specUrgency exTask.due_date exTask.bucket 0),
       specFriction exTask.description,
       6 - clamp15 (prioNum3 exTask.priority) +
         specUrgency exTask.due_date exTask.bucket 0 +
         riskOfUrgency (specUrgency exTask.due_date exTask.bucket 0) -
         specFriction exTask.description⟩ ∧
    (computeTonyScore storedTask 0).L = 42 :=
  ⟨(C6_scores_amended exTask 0).2.2.2.2 rfl rfl rfl,
   (C6_scores_amended storedTask 0).2.1 42 rfl⟩

/-- C7 (evaluation at the failing input): two open tasks that tie on
completion, priority and due date, in buckets "today" and "backlog".
The claimed bucket rank puts "today" strictly first, but the list
query's ORDER BY compares the bucket column as text, so the sorted
result puts "backlog" first. -/
theorem C7_list_order_bug :
    sortRows [todayRow, backlogRow] = [backlogRow, todayRow] ∧
    specBucketRank todayRow.bucket < specBucketRank backlogRow.bucket ∧
    todayRow.status ≠ "done" ∧ backlogRow.status ≠ "done" ∧
    todayRow.priority = backlogRow.priority ∧
    todayRow.due_date = backlogRow.due_date := by decide

/-- C8: creating a task with a missing, empty or non-string title is
rejected with a 400 client error (no row is produced), and creating with
a valid title and no other fields yields a row with the defaults
status "open", bucket "later", priority 3. -/
theorem C8_create_validates (b : CreateBody) :
    (b.title = none → createTask b = Except.error (400, "title is required")) ∧
    (b.title = some (TitleVal.str "") →
      createTask b = Except.error (400, "title is required")) ∧
    (∀ tr : Bool, b.title = some (TitleVal.nonStr tr) →
      createTask b = Except.error (400, "title is required")) ∧
    (∀ s : String, s ≠ "" →
      createTask { title := some (TitleVal.str s) } =
        Except.ok
          { title := s
            description := none
            area := none
            status := "open"
            bucket := "later"
            priority := 3
            due_date := none }) := by
  rcases b with ⟨ti, d, ar, st, bu, pr, due⟩
  refine ⟨?_, ?_, ?_, ?_⟩
  · intro h
    subst h
    rfl
  · intro h
    subst h
    rfl
  · intro tr h
    subst h
    rfl
  · intro s hs
    show (if s = "" then _ else _) = _
    rw [if_neg hs]
    rfl

/-- C8 witness: the validation and defaults at concrete bodies. -/
theorem C8_create_validates_witness :
    createTask { } = Except.error (400, "title is required") ∧
    createTask { title := some (TitleVal.str "") } =
      Except.error (400, "title is required") ∧
    createTask { title := some (TitleVal.nonStr true) } =
      Except.error (400, "title is required") ∧
    createTask { title := some (TitleVal.str "Buy milk") } =
      Except.ok
        { title := "Buy milk"
          description := none
          area := none
          status := "open"
          bucket := "later"
          priority := 3
          due_date := none } :=
  ⟨(C8_create_validates { }).1 rfl,
   (C8_create_validates { title := some (TitleVal.str "") }).2.1 rfl,
   (C8_create_validates { title := some (TitleVal.nonStr true) }).2.2.1
     true rfl,
   (C8_create_validates { }).2.2.2 "Buy milk" (by decide)⟩

/-- C9 counterexample: a brain-dump batch whose only draft has the
non-empty title "   " creates no task in the "industry-grade" handler —
it trims the title before the emptiness check — although the claim says
every draft with a non-empty title is created. -/
theorem C9_counterexample :
    processDrafts2 "today" none 0 [{ title := some "   " }] = [] ∧
    (some "   " : Option String) ≠ none ∧ ("   " : String) ≠ "" := by
  decide

/-- C9 amended: in every brain-dump batch a draft creates exactly one
task when its title is non-empty after string coercion and trimming (the
"industry-grade" handler) respectively truthy (the later handler), and
is silently skipped otherwise; in particular an empty-or-missing-title
draft produces no task and never aborts the batch, while whitespace-only
titles are additionally skipped by the trimming handler. -/
theorem C9_brain_dump_amended (dB : String) (dA : Option String)
    (now : Int) (ds : List Draft) :
    processDrafts2 dB dA now ds =
      (ds.filter fun t => !(jsTrim (t.title.getD "") == "")).map
        (mkBrainTask dB dA now) ∧
    processDrafts3 dB dA ds =
      (ds.filter fun t => !(t.title.getD "" == "")).map
        (mkBrainTask3 dB dA) := by
  constructor
  · induction ds with
    | nil => rfl
    | cons t ts ih =>
        by_cases h : jsTrim (t.title.getD "") = ""
        · simp [processDrafts2, h, List.filter_cons, ih]
        · simp [processDrafts2, h, List.filter_cons, ih]
  · induction ds with
    | nil => rfl
    | cons t ts ih =>
        by_cases h : t.title.getD "" = ""
        · simp [processDrafts3, h, List.filter_cons, ih]
        · simp [processDrafts3, h, List.filter_cons, ih]

/-- C10: for fixed current time and fixed other fields, urgency is
antitone in a parseable due date: an earlier deadline never yields a
lower urgency, in both urgency functions. -/
theorem C10_urgency_antitone (t : Task) (now d1 d2 : Int) (h : d1 ≤ d2) :
    urgencyScore { t with due_date := some (some d2) } now ≤
      urgencyScore { t with due_date := some (some d1) } now ∧
    tonyUrgency { t with due_date := some (some d2) } now ≤
      tonyUrgency { t with due_date := some (some d1) } now := by
  have key : hourUrgency (d2 - now) ≤ hourUrgency (d1 - now) :=
    hourUrgency_anti (by omega)
  exact ⟨key, key⟩

/-- C10 witness: the antitone law at the concrete pair 0 ≤ 7200000. -/
theorem C10_urgency_antitone_witness :
    urgencyScore { ({ } : Task) with due_date := some (some 7200000) } 0 ≤
      urgencyScore { ({ } : Task) with due_date := some (some 0) } 0 ∧
    tonyUrgency { ({ } : Task) with due_date := some (some 7200000) } 0 ≤
      tonyUrgency { ({ } : Task) with due_date := some (some 0) } 0 :=
  C10_urgency_antitone { } 0 0 7200000 (by decide)

end TonyOS
